import Mathlib

/-!
Verification development for `tools/parser.py` of the maz-hw-gps repository:
a linear pipeline that reads NMEA GPS sentences from a text log, extracts
(latitude, longitude) fixes and computes static positioning statistics.

The Python source delegates sentence decoding to the external `pynmea2`
library, geodesic distance to `geopy`, and numeric aggregation to `numpy`.
Those library entry points are modelled here explicitly:
  * `pynmea2.parse` and the attribute accesses the program performs on its
    result are modelled from the pynmea2 sources (regular-expression line
    match, checksum verification, talker-sentence field tables,
    degree/minute conversion `dm_to_sd`);
  * `geopy.distance.geodesic(...).meters` is an uninterpreted parameter
    `gd` of the statistics functions;
  * `numpy`'s `mean`, `square`, `sqrt` and `percentile` (default linear
    interpolation) are modelled over exact numbers.
Python `float` values are idealised as exact rationals (for decoded
coordinates) and real numbers (for distances and statistics); no claim in
scope depends on binary floating-point rounding.  Python exceptions are
modelled with `Except`: an `Except.error` outcome is an exception that the
surrounding Python code did not catch.
-/

/-- Python exception kinds that can escape the library calls this program
makes: `pynmea2.nmea.ChecksumError`, `pynmea2.nmea.ParseError` (failed
sentence regular expression), `pynmea2.nmea.SentenceTypeError` (a
`ParseError` subclass for unknown sentence types), `ValueError` (from
`int(checksum, 16)` on non-hex characters) and `AttributeError` (from
`dm_to_sd` on malformed coordinate text, or a missing field name). -/
inductive PyErr where
  | checksumError
  | parseError
  | sentenceTypeError
  | valueError
  | attributeError
deriving DecidableEq

/-- The whitespace set of Python `str.strip()` and of the regex class `\s`
on `str` patterns: ASCII whitespace plus the Unicode whitespace code
points. -/
def pyIsSpace (c : Char) : Bool :=
  c == ' ' || c == '\t' || c == '\n' || c == '\r' || c.toNat == 0x0b ||
  c.toNat == 0x0c || (0x1c ≤ c.toNat && c.toNat ≤ 0x1f) || c.toNat == 0x85 ||
  c.toNat == 0xa0 || c.toNat == 0x1680 ||
  (0x2000 ≤ c.toNat && c.toNat ≤ 0x200a) || c.toNat == 0x2028 ||
  c.toNat == 0x2029 || c.toNat == 0x202f || c.toNat == 0x205f ||
  c.toNat == 0x3000

/-- Python `line.strip()`: drop leading and trailing whitespace. -/
def pyStrip (cs : List Char) : List Char :=
  ((cs.dropWhile pyIsSpace).reverse.dropWhile pyIsSpace).reverse

/-- Python `re.sub(r'[^\x00-\x7F]+', '', line)`: delete every character
whose code point is above 0x7F, keeping all ASCII characters (printable or
not). -/
def removeNonAscii (cs : List Char) : List Char :=
  cs.filter (fun c => c.toNat ≤ 0x7F)

/-- Python `bool(re.match(r'^\$[A-Z]{5},', line))`: the line begins with a
dollar sign, five uppercase ASCII letters and a comma. -/
def nmeaHeader : List Char → Bool
  | c0 :: a :: b :: c :: d :: e :: f :: _ =>
      c0 == '$' && a.isUpper && b.isUpper && c.isUpper && d.isUpper &&
      e.isUpper && f == ','
  | _ => false

/-- `is_valid_nmea` from parser.py lines 11-16: strip whitespace, delete
non-ASCII characters, then match the header pattern.  The cleaning is done
on a local copy; the caller keeps the raw line. -/
def is_valid_nmea (line : String) : Bool :=
  nmeaHeader (removeNonAscii (pyStrip line.data))

/-- Python `cs` begins with the list `ps`. -/
def listStarts : List Char → List Char → Bool
  | _, [] => true
  | [], _ :: _ => false
  | c :: cs, p :: ps => c == p && listStarts cs ps

/-- Python `line.startswith(pre)`. -/
def pyStartsWith (line pre : String) : Bool :=
  listStarts line.data pre.data

/-- Python word character test for the regex class `\w` as used on the
sentence-type characters.  ASCII behaviour is exact; every character above
0x7F is treated as a word character (Python matches Unicode word
characters there; no result below depends on the classification of a
non-ASCII character). -/
def pyIsWordChar (c : Char) : Bool :=
  c.isAlpha || c.isDigit || c == '_' || 0x7F < c.toNat

/-- Modelled from pynmea2: the proprietary alternative `(P\w{3})` of the
sentence-type group.  Returns the matched sentence-type characters and the
remainder of the line. -/
def matchProp : List Char → Option (List Char × List Char)
  | p :: a :: b :: c :: rest =>
      if p == 'P' && pyIsWordChar a && pyIsWordChar b && pyIsWordChar c then
        some ([p, a, b, c], rest)
      else none
  | _ => none

/-- Modelled from pynmea2: the query alternative `(\w{2}\w{2}Q,\w{3})` of
the sentence-type group. -/
def matchQuery : List Char → Option (List Char × List Char)
  | a :: b :: c :: d :: q :: m :: e :: f :: g :: rest =>
      if pyIsWordChar a && pyIsWordChar b && pyIsWordChar c &&
         pyIsWordChar d && q == 'Q' && m == ',' && pyIsWordChar e &&
         pyIsWordChar f && pyIsWordChar g then
        some ([a, b, c, d, q, m, e, f, g], rest)
      else none
  | _ => none

/-- Modelled from pynmea2: the talker alternative `(\w{2}\w{3},)` of the
sentence-type group; the comma is part of the matched group. -/
def matchTalker : List Char → Option (List Char × List Char)
  | a :: b :: c :: d :: e :: f :: rest =>
      if pyIsWordChar a && pyIsWordChar b && pyIsWordChar c &&
         pyIsWordChar d && pyIsWordChar e && f == ',' then
        some ([a, b, c, d, e, f], rest)
      else none
  | _ => none

/-- Modelled from pynmea2: the ordered alternation
`(P\w{3})|(\w{2}\w{2}Q,\w{3})|(\w{2}\w{3},)` inside `sentence_re`. -/
def matchSentenceType (cs : List Char) : Option (List Char × List Char) :=
  match matchProp cs with
  | some r => some r
  | none =>
    match matchQuery cs with
    | some r => some r
    | none => matchTalker cs

/-- Python `data_str.split(',')` (auxiliary recursion). -/
def splitCommaAux : List Char → List Char → List String
  | [], cur => [String.mk cur.reverse]
  | ',' :: rest, cur => String.mk cur.reverse :: splitCommaAux rest []
  | c :: rest, cur => splitCommaAux rest (c :: cur)

/-- Python `data_str.split(',')`: note `''.split(',') == ['']`. -/
def splitComma (cs : List Char) : List String :=
  splitCommaAux cs []

/-- Modelled from pynmea2 `NMEASentence.checksum`: XOR of the character
codes of the sentence body. -/
def xorChecksum (cs : List Char) : Nat :=
  cs.foldl (fun a c => a ^^^ c.toNat) 0

/-- Value of one hexadecimal digit as accepted by Python `int(c, 16)`;
`none` models the `ValueError` raised on other characters. -/
def hexVal (c : Char) : Option Nat :=
  if c.isDigit then some (c.toNat - 48)
  else if 'a' ≤ c && c ≤ 'f' then some (c.toNat - 87)
  else if 'A' ≤ c && c ≤ 'F' then some (c.toNat - 55)
  else none

/-- The decoded sentence object as far as this program inspects it: the
talker id, the three-letter sentence type, and the raw data fields from
`data_str.split(',')`. -/
structure PyMsg where
  talker : String
  sentence : String
  data : List String
deriving DecidableEq

/-- Modelled from pynmea2 `NMEASentence.parse` (called as
`pynmea2.parse(line)`, so with `check=False`):
  1. match `sentence_re` (`^\s*\$?` then the sentence-type alternation,
     then data `[^*]*`, then an optional checksum `[*]\w{2}`; trailing
     characters after the checksum do not fail the match) — failure raises
     `ParseError`;
  2. if a checksum group matched, compare `int(checksum, 16)` with the XOR
     checksum of the sentence body — mismatch raises `ChecksumError`,
     non-hex checksum characters raise `ValueError`;
  3. dispatch on the sentence type.  The three talker types this program
     can reach through its dispatch prefixes (`GGA`, `GLL`, `RMC`) build a
     talker-sentence object; every other sentence type is mapped to
     `SentenceTypeError` here (pynmea2 knows further talker types and
     builds proprietary/query objects, but no line starting with `$GNGLL`,
     `$GPGGA`, `$GPRMC` or `$GNRMC` reaches them). -/
def pynmea2_parse (line : String) : Except PyErr PyMsg :=
  let cs0 := line.data.dropWhile pyIsSpace
  let cs := if cs0.head? == some '$' then cs0.tail else cs0
  match matchSentenceType cs with
  | none => Except.error PyErr.parseError
  | some (stype, rest) =>
    let dataStr := rest.takeWhile (fun c => c ≠ '*')
    let rest2 := rest.dropWhile (fun c => c ≠ '*')
    let checksum : Option (Char × Char) :=
      match rest2 with
      | '*' :: c1 :: c2 :: _ =>
          if pyIsWordChar c1 && pyIsWordChar c2 then some (c1, c2) else none
      | _ => none
    let classify : Except PyErr PyMsg :=
      match stype with
      | [a, b, c, d, e, f] =>
          let sentence := String.mk [c, d, e]
          if f == ',' &&
             (sentence == "GGA" || sentence == "GLL" || sentence == "RMC") then
            Except.ok ⟨String.mk [a, b], sentence, splitComma dataStr⟩
          else Except.error PyErr.sentenceTypeError
      | _ => Except.error PyErr.sentenceTypeError
    match checksum with
    | none => classify
    | some (c1, c2) =>
      match hexVal c1, hexVal c2 with
      | some h1, some h2 =>
          if 16 * h1 + h2 ≠ xorChecksum (stype ++ dataStr) then
            Except.error PyErr.checksumError
          else classify
      | _, _ => Except.error PyErr.valueError

/-- Modelled from pynmea2 `TalkerSentence.__getattr__` for fields without
a type converter: the raw field string, or the empty string when the field
index is beyond the transmitted data. -/
def msg_field (m : PyMsg) (i : Nat) : String :=
  m.data.getD i ""

/-- Integer value of a list of ASCII decimal digits. -/
def decDigitsVal (ds : List Char) : ℚ :=
  ds.foldl (fun a c => 10 * a + ((c.toNat : ℚ) - 48)) 0

/-- Modelled from pynmea2 `dm_to_sd`: converts `"dddmm.mmmm"` text to
decimal degrees.  Empty text and `"0"` give `0`; any other text must match
`^(\d+)(\d\d\.\d+)$` — otherwise `.groups()` is called on `None` and an
`AttributeError` escapes. -/
def dm_to_sd (dm : String) : Except PyErr ℚ :=
  if dm == "" || dm == "0" then Except.ok 0
  else
    let cs := dm.data
    let ip := cs.takeWhile Char.isDigit
    let rest := cs.dropWhile Char.isDigit
    match rest with
    | '.' :: frac =>
      if 3 ≤ ip.length && !frac.isEmpty && frac.all Char.isDigit then
        let d := decDigitsVal (ip.take (ip.length - 2))
        let m := decDigitsVal (ip.drop (ip.length - 2)) +
                 decDigitsVal frac / (10 : ℚ) ^ frac.length
        Except.ok (d + m / 60)
      else Except.error PyErr.attributeError
    | _ => Except.error PyErr.attributeError

/-- Index of the `lat` field in the pynmea2 field tables of the three
sentence classes this program reaches (`lat_dir`, `lon`, `lon_dir` follow
at offsets 1, 2, 3). -/
def latFieldIdx : String → Option Nat
  | "GGA" => some 1
  | "GLL" => some 0
  | "RMC" => some 2
  | _ => none

/-- Modelled from pynmea2 `LatLonFix.latitude`: convert the `lat` field
with `dm_to_sd` (which may raise), then sign it by `lat_dir`; any
direction other than `N`/`S` gives `0`.  `AttributeError` when the
sentence class has no such field. -/
def msg_latitude (m : PyMsg) : Except PyErr ℚ :=
  match latFieldIdx m.sentence with
  | none => Except.error PyErr.attributeError
  | some i =>
    match dm_to_sd (msg_field m i) with
    | Except.error e => Except.error e
    | Except.ok sd =>
      let dir := msg_field m (i + 1)
      if dir == "N" then Except.ok sd
      else if dir == "S" then Except.ok (-sd)
      else Except.ok 0

/-- Modelled from pynmea2 `LatLonFix.longitude`: as `msg_latitude`, with
the `lon`/`lon_dir` fields and `E`/`W` signs. -/
def msg_longitude (m : PyMsg) : Except PyErr ℚ :=
  match latFieldIdx m.sentence with
  | none => Except.error PyErr.attributeError
  | some i =>
    match dm_to_sd (msg_field m (i + 2)) with
    | Except.error e => Except.error e
    | Except.ok sd =>
      let dir := msg_field m (i + 3)
      if dir == "E" then Except.ok sd
      else if dir == "W" then Except.ok (-sd)
      else Except.ok 0

/-- Modelled from pynmea2 field tables: `msg.status` is field 5 of `GLL`
and field 1 of `RMC`; `GGA` has no `status` field, so the access raises
`AttributeError`. -/
def msg_status (m : PyMsg) : Except PyErr String :=
  match m.sentence with
  | "GLL" => Except.ok (msg_field m 5)
  | "RMC" => Except.ok (msg_field m 1)
  | _ => Except.error PyErr.attributeError

/-- `parse_gngll` from parser.py lines 19-28: decode the line, return the
signed coordinates only when `msg.status == 'A'`, otherwise
`(None, None)`.  Only `ChecksumError` is caught; every other exception
escapes to the caller. -/
def parse_gngll (line : String) : Except PyErr (Option ℚ × Option ℚ) :=
  match pynmea2_parse line with
  | Except.error PyErr.checksumError => Except.ok (none, none)
  | Except.error e => Except.error e
  | Except.ok msg =>
    match msg_status msg with
    | Except.error e => Except.error e
    | Except.ok s =>
      if s == "A" then
        match msg_latitude msg with
        | Except.error e => Except.error e
        | Except.ok la =>
          match msg_longitude msg with
          | Except.error e => Except.error e
          | Except.ok lo => Except.ok (some la, some lo)
      else Except.ok (none, none)

/-- `parse_gpgga` from parser.py lines 31-39: decode the line and return
the signed coordinates with no status gate.  Only `ChecksumError` is
caught. -/
def parse_gpgga (line : String) : Except PyErr (Option ℚ × Option ℚ) :=
  match pynmea2_parse line with
  | Except.error PyErr.checksumError => Except.ok (none, none)
  | Except.error e => Except.error e
  | Except.ok msg =>
    match msg_latitude msg with
    | Except.error e => Except.error e
    | Except.ok la =>
      match msg_longitude msg with
      | Except.error e => Except.error e
      | Except.ok lo => Except.ok (some la, some lo)

/-- `parse_gprmc` from parser.py lines 42-51: same body as `parse_gngll`. -/
def parse_gprmc (line : String) : Except PyErr (Option ℚ × Option ℚ) :=
  match pynmea2_parse line with
  | Except.error PyErr.checksumError => Except.ok (none, none)
  | Except.error e => Except.error e
  | Except.ok msg =>
    match msg_status msg with
    | Except.error e => Except.error e
    | Except.ok s =>
      if s == "A" then
        match msg_latitude msg with
        | Except.error e => Except.error e
        | Except.ok la =>
          match msg_longitude msg with
          | Except.error e => Except.error e
          | Except.ok lo => Except.ok (some la, some lo)
      else Except.ok (none, none)

/-- `parse_gnrmc` from parser.py lines 54-63: same body as `parse_gngll`. -/
def parse_gnrmc (line : String) : Except PyErr (Option ℚ × Option ℚ) :=
  match pynmea2_parse line with
  | Except.error PyErr.checksumError => Except.ok (none, none)
  | Except.error e => Except.error e
  | Except.ok msg =>
    match msg_status msg with
    | Except.error e => Except.error e
    | Except.ok s =>
      if s == "A" then
        match msg_latitude msg with
        | Except.error e => Except.error e
        | Except.ok la =>
          match msg_longitude msg with
          | Except.error e => Except.error e
          | Except.ok lo => Except.ok (some la, some lo)
      else Except.ok (none, none)

/-- The four dispatch branches of the loader loop, parser.py lines 84-93. -/
inductive SType where
  | gngll
  | gpgga
  | gprmc
  | gnrmc
deriving DecidableEq

/-- The `elif` chain of `load_gps_data`: which sentence branch handles the
raw (uncleaned) line, by `line.startswith(...)` on the four recognized
6-character type strings. -/
def dispatch_stype (line : String) : Option SType :=
  if pyStartsWith line "$GNGLL" then some SType.gngll
  else if pyStartsWith line "$GPGGA" then some SType.gpgga
  else if pyStartsWith line "$GPRMC" then some SType.gprmc
  else if pyStartsWith line "$GNRMC" then some SType.gnrmc
  else none

/-- The type-specific decoder invoked by each dispatch branch. -/
def parse_by : SType → String → Except PyErr (Option ℚ × Option ℚ)
  | SType.gngll => parse_gngll
  | SType.gpgga => parse_gpgga
  | SType.gprmc => parse_gprmc
  | SType.gnrmc => parse_gnrmc

/-- The line loop of `load_gps_data`, parser.py lines 78-98: skip lines
failing the validator, skip unrecognized prefixes, and append both
coordinates exactly when the parse produced non-`None` values.  An
exception escaping a parse aborts the whole loop. -/
def loadLoop (acc : List ℚ × List ℚ) :
    List String → Except PyErr (List ℚ × List ℚ)
  | [] => Except.ok acc
  | line :: rest =>
    if is_valid_nmea line then
      match dispatch_stype line with
      | none => loadLoop acc rest
      | some t =>
        match parse_by t line with
        | Except.error e => Except.error e
        | Except.ok (la, lo) =>
          match la, lo with
          | some a, some b => loadLoop (acc.1 ++ [a], acc.2 ++ [b]) rest
          | _, _ => loadLoop acc rest
    else loadLoop acc rest

/-- `load_gps_data` from parser.py lines 66-100 over an abstract file
system `fs` mapping a path to its decoded lines (`None` = missing file).
`os.path.abspath` is abstracted to the identity; the best-effort utf-8
decoding of the file (`errors='ignore'`) is part of `fs`.  The first
component of the result collects the printed messages. -/
def load_gps_data (fs : String → Option (List String)) (filename : String) :
    Except PyErr (List String × (List ℚ × List ℚ)) :=
  match fs filename with
  | none => Except.ok (["错误：文件 " ++ filename ++ " 不存在!"], ([], []))
  | some lines =>
    match loadLoop ([], []) lines with
    | Except.error e => Except.error e
    | Except.ok (la, lo) => Except.ok ([], (la, lo))

/-- Per-line summary of the loader loop, used to state what
`load_gps_data` accumulates: the fix contributed by one line, if any. -/
def lineFix (line : String) : Option (ℚ × ℚ) :=
  if is_valid_nmea line then
    match dispatch_stype line with
    | none => none
    | some t =>
      match parse_by t line with
      | Except.ok (some a, some b) => some (a, b)
      | _ => none
  else none

/-- A Python float as far as the statistics stages distinguish values:
`np.nan` or an (idealised, exact) number. -/
inductive PyFloat where
  | nan
  | val (x : ℝ)

/-- `np.mean` of a list of rationals: sum divided by length. -/
def np_mean_q (xs : List ℚ) : ℚ :=
  xs.sum / (xs.length : ℚ)

/-- `np.mean` of a list of reals: sum divided by length. -/
noncomputable def np_mean_r (xs : List ℝ) : ℝ :=
  xs.sum / (xs.length : ℝ)

/-- The error-accumulation loop of `calculate_rms`, parser.py lines
113-115: `for lat, lon in zip(...): errors.append(geodesic(mean, pt).meters)`. -/
def errorsLoop (gd : ℚ × ℚ → ℚ × ℚ → ℝ) (c : ℚ × ℚ) :
    List (ℚ × ℚ) → List ℝ → List ℝ
  | [], acc => acc
  | p :: ps, acc => errorsLoop gd c ps (acc ++ [gd c p])

/-- `calculate_rms` from parser.py lines 103-119.  `gd a b` is
`geodesic(a, b).meters` from geopy, kept abstract.  On empty input the
function prints an error and returns `np.nan`; otherwise it returns
`np.sqrt(np.mean(np.square(errors)))` for the per-point distances to the
mean position. -/
noncomputable def calculate_rms (gd : ℚ × ℚ → ℚ × ℚ → ℝ)
    (latitudes longitudes : List ℚ) : List String × PyFloat :=
  if latitudes.isEmpty || longitudes.isEmpty then
    (["错误：没有有效的 GPS 数据，无法计算 RMS!"], PyFloat.nan)
  else
    let mean_lat := np_mean_q latitudes
    let mean_lon := np_mean_q longitudes
    let errors := errorsLoop gd (mean_lat, mean_lon)
      (latitudes.zip longitudes) []
    ([], PyFloat.val (Real.sqrt (np_mean_r (errors.map (fun e => e * e)))))

/-- `np.sort` over reals (ascending). -/
noncomputable def np_sort (xs : List ℝ) : List ℝ :=
  xs.mergeSort (fun a b => decide (a ≤ b))

/-- Modelled from `np.percentile` with its default linear interpolation,
for a non-empty input and `0 ≤ q ≤ 100`: sort, take the virtual index
`h = (n-1) * q / 100`, and interpolate linearly between the order
statistics at `⌊h⌋` and `⌈h⌉`. -/
noncomputable def np_percentile_one (xs : List ℝ) (q : ℚ) : ℝ :=
  let arr := np_sort xs
  let h : ℝ := ((xs.length : ℝ) - 1) * (q : ℝ) / 100
  let lo := arr.getD (Int.floor h).toNat 0
  let hi := arr.getD (Int.ceil h).toNat 0
  lo + (h - Int.floor h) * (hi - lo)

/-- `calculate_percentiles` from parser.py lines 122-126: on an empty
error list it prints an error and returns the empty Python list; otherwise
`np.percentile(errors, percentiles)`, one value per requested
percentile. -/
noncomputable def calculate_percentiles (errors : List ℝ)
    (percentiles : List ℚ) : List String × List ℝ :=
  if errors.isEmpty then
    (["错误：没有有效的误差数据，无法计算百分位!"], [])
  else
    ([], percentiles.map (np_percentile_one errors))

/-- Observable outcome of one `main()` run: the printed lines, the
computed statistics stage (`None` when the run returned before computing
them), the rows written to the CSV artifact (`None` when no file was
written) and whether the histogram was rendered. -/
structure MainTrace where
  printed : List String
  stats : Option (PyFloat × List ℝ)
  csv : Option (List (ℚ × ℚ))
  histogram : Bool

/-- `main` from parser.py lines 147-186 over the abstract file system
`fs`, geodesic distance `gd` and float formatting `fmt` (the `{:.2f}`
rendering of a float, not modelled numerically).  Command-line handling is
abstracted to the `file` argument, and the CSV path derivation
(`basename` + `.csv`) is dropped from the trace, which keeps only the
written rows. -/
noncomputable def main (fs : String → Option (List String))
    (gd : ℚ × ℚ → ℚ × ℚ → ℝ) (fmt : ℝ → String) (file : String) :
    Except PyErr MainTrace :=
  match load_gps_data fs file with
  | Except.error e => Except.error e
  | Except.ok (msgs, (latitudes, longitudes)) =>
    if latitudes.isEmpty || longitudes.isEmpty then
      Except.ok ⟨msgs ++ ["错误：没有解析到有效的 GPS 数据。"], none, none, false⟩
    else
      let rmsRes := calculate_rms gd latitudes longitudes
      let rmsMsg :=
        match rmsRes.2 with
        | PyFloat.val x => ["RMS: " ++ fmt x ++ " meters"]
        | PyFloat.nan => ["RMS 计算失败。"]
      let errors := (latitudes.zip longitudes).map
        (fun p => gd (np_mean_q latitudes, np_mean_q longitudes) p)
      let percRes := calculate_percentiles errors [68, 95]
      let percMsgs :=
        if 0 < percRes.2.length then
          ["68% percentile error: " ++ fmt (percRes.2.getD 0 0) ++ " meters",
           "95% percentile error: " ++ fmt (percRes.2.getD 1 0) ++ " meters"]
        else ["无法计算百分位误差。"]
      let histMsgs :=
        if errors.isEmpty then ["错误：没有足够的误差数据进行绘图!"] else []
      Except.ok ⟨msgs ++ rmsRes.1 ++ rmsMsg ++ percRes.1 ++ percMsgs ++ histMsgs,
        some (rmsRes.2, percRes.2), some (latitudes.zip longitudes),
        !errors.isEmpty⟩

/-- Spec-side cleaning for claim C3 as worded: remove every character
outside the printable ASCII range (0x20 to 0x7E). -/
def specCleanPrintable (cs : List Char) : List Char :=
  cs.filter (fun c => 0x20 ≤ c.toNat && c.toNat ≤ 0x7E)

/-- Spec-side statement of the validator pattern: the cleaned line begins
with a dollar sign, then exactly five uppercase ASCII letters, then a
comma. -/
def specHeader (cs : List Char) : Prop :=
  ∃ a b c d e rest, cs = '$' :: a :: b :: c :: d :: e :: ',' :: rest ∧
    ∀ x ∈ [a, b, c, d, e], 'A' ≤ x ∧ x ≤ 'Z'

/-- A line that passes the validator only by virtue of the cleaning: the
cleaned copy matches the validator pattern but the raw line does not
(claim C10). -/
def onlyByCleaning (line : String) : Bool :=
  is_valid_nmea line && !(nmeaHeader line.data)

/-- Spec-side error series (claim C7): the geodesic distance from each
position to the centroid, the centroid being the pair of independent
arithmetic means.  This is also the series `main` builds with its list
comprehension. -/
noncomputable def spec_errors (gd : ℚ × ℚ → ℚ × ℚ → ℝ)
    (lats lons : List ℚ) : List ℝ :=
  (lats.zip lons).map (fun p => gd (np_mean_q lats, np_mean_q lons) p)

/-- Spec-side RMS (claim C7): square root of the mean of the squared
per-point errors. -/
noncomputable def spec_rms (es : List ℝ) : ℝ :=
  Real.sqrt ((es.map (fun e => e * e)).sum / (es.length : ℝ))

deriving instance DecidableEq for Except

theorem errorsLoop_eq (gd : ℚ × ℚ → ℚ × ℚ → ℝ) (c : ℚ × ℚ) :
    ∀ (ps : List (ℚ × ℚ)) (acc : List ℝ),
      errorsLoop gd c ps acc = acc ++ ps.map (gd c) := by
  intro ps
  induction ps with
  | nil => intro acc; simp [errorsLoop]
  | cons p ps ih =>
      intro acc
      simp [errorsLoop, ih (acc ++ [gd c p])]

theorem listStarts_iff (ps cs : List Char) :
    listStarts cs ps = true ↔ ∃ t, cs = ps ++ t := by
  induction ps generalizing cs with
  | nil => simp [listStarts]
  | cons p ps ih =>
      cases cs with
      | nil => simp [listStarts]
      | cons c cs =>
          simp only [listStarts, Bool.and_eq_true, beq_iff_eq, ih,
            List.cons_append, List.cons.injEq]
          constructor
          · rintro ⟨hc, t, ht⟩
            exact ⟨t, hc, ht⟩
          · rintro ⟨t, hc, ht⟩
            exact ⟨hc, t, ht⟩

theorem loadLoop_char :
    ∀ (lines : List String) (acc : List ℚ × List ℚ) (la lo : List ℚ),
      loadLoop acc lines = Except.ok (la, lo) →
      la = acc.1 ++ (lines.filterMap lineFix).map Prod.fst ∧
      lo = acc.2 ++ (lines.filterMap lineFix).map Prod.snd := by
  intro lines
  induction lines with
  | nil =>
      intro acc la lo h
      obtain ⟨a1, a2⟩ := acc
      simp [loadLoop] at h
      simp [h.1, h.2]
  | cons line rest ih =>
      intro acc la lo h
      simp only [List.filterMap_cons]
      by_cases hv : is_valid_nmea line
      · cases hd : dispatch_stype line with
        | none =>
            simp only [loadLoop, hv, if_true, hd] at h
            simpa [lineFix, hv, hd] using ih acc la lo h
        | some t =>
            cases hp : parse_by t line with
            | error e =>
                simp only [loadLoop, hv, if_true, hd, hp] at h
                exact absurd h (by simp)
            | ok r =>
                obtain ⟨laO, loO⟩ := r
                cases laO with
                | none =>
                    simp only [loadLoop, hv, if_true, hd, hp] at h
                    simpa [lineFix, hv, hd, hp] using ih acc la lo h
                | some a =>
                    cases loO with
                    | none =>
                        simp only [loadLoop, hv, if_true, hd, hp] at h
                        simpa [lineFix, hv, hd, hp] using ih acc la lo h
                    | some b =>
                        simp only [loadLoop, hv, if_true, hd, hp] at h
                        have := ih (acc.1 ++ [a], acc.2 ++ [b]) la lo h
                        simpa [lineFix, hv, hd, hp] using this
      · simp only [loadLoop, hv, if_false, Bool.false_eq_true] at h
        simpa [lineFix, hv] using ih acc la lo h

theorem getD_zero_of_all_zero :
    ∀ (l : List ℝ) (n : Nat), (∀ x ∈ l, x = 0) → l.getD n 0 = 0 := by
  intro l
  induction l with
  | nil => intro n hz; simp
  | cons a l ih =>
      intro n hz
      cases n with
      | zero => simpa using hz a (by simp)
      | succ n =>
          simp only [List.getD_cons_succ]
          exact ih n (fun x hx => hz x (by simp [hx]))

theorem np_percentile_one_all_zero (es : List ℝ) (q : ℚ)
    (hz : ∀ x ∈ es, x = 0) : np_percentile_one es q = 0 := by
  have hs : ∀ x ∈ np_sort es, x = 0 := by
    intro x hx
    exact hz x ((List.mergeSort_perm es _).mem_iff.mp hx)
  simp only [np_percentile_one]
  rw [getD_zero_of_all_zero _ _ hs, getD_zero_of_all_zero _ _ hs]
  ring

theorem zip_replicate_eq {α β : Type} (a : α) (b : β) :
    ∀ n, (List.replicate n a).zip (List.replicate n b) =
      List.replicate n (a, b) := by
  intro n
  induction n with
  | zero => simp
  | succ n ih => simp [List.replicate_succ, ih]

theorem np_mean_q_replicate (n : Nat) (x : ℚ) (hn : 0 < n) :
    np_mean_q (List.replicate n x) = x := by
  have hne : (n : ℚ) ≠ 0 := Nat.cast_ne_zero.mpr (Nat.pos_iff_ne_zero.mp hn)
  simp [np_mean_q, List.sum_replicate, nsmul_eq_mul]
  field_simp

theorem matchSentenceType_none (c1 c2 c3 c4 c5 : Char) (rest : List Char)
    (h1 : c1 ≠ 'P') (h2 : c5 ≠ 'Q') (hc : rest.head? ≠ some ',') :
    matchSentenceType (c1 :: c2 :: c3 :: c4 :: c5 :: rest) = none := by
  have e1 : (c1 == 'P') = false := beq_eq_false_iff_ne.mpr h1
  have e2 : (c5 == 'Q') = false := beq_eq_false_iff_ne.mpr h2
  rcases rest with _ | ⟨r0, _ | ⟨r1, _ | ⟨r2, _ | ⟨r3, rest4⟩⟩⟩⟩
  · simp [matchSentenceType, matchProp, matchQuery, matchTalker, e1]
  all_goals {
    have er0 : (r0 == ',') = false := by
      apply beq_eq_false_iff_ne.mpr
      intro e
      exact hc (by simp [e])
    simp [matchSentenceType, matchProp, matchQuery, matchTalker, e1, e2, er0]
  }

theorem pynmea2_parse_error_of_header (line : String)
    (c1 c2 c3 c4 c5 : Char) (rest : List Char)
    (hd : line.data = '$' :: c1 :: c2 :: c3 :: c4 :: c5 :: rest)
    (h1 : c1 ≠ 'P') (h2 : c5 ≠ 'Q') (hc : rest.head? ≠ some ',') :
    pynmea2_parse line = Except.error PyErr.parseError := by
  have hsp : pyIsSpace '$' = false := by decide
  simp only [pynmea2_parse, hd, List.dropWhile_cons, hsp, Bool.false_eq_true,
    if_false, List.head?_cons, List.tail_cons]
  simp [matchSentenceType_none c1 c2 c3 c4 c5 rest h1 h2 hc]

theorem parse_error_aux (line : String) (c1 c2 c3 c4 c5 : Char)
    (tail : List Char)
    (hdata : line.data = '$' :: c1 :: c2 :: c3 :: c4 :: c5 :: tail)
    (hraw : nmeaHeader line.data = false)
    (h1 : c1 ≠ 'P') (h2 : c5 ≠ 'Q')
    (hu1 : c1.isUpper = true) (hu2 : c2.isUpper = true)
    (hu3 : c3.isUpper = true) (hu4 : c4.isUpper = true)
    (hu5 : c5.isUpper = true) :
    pynmea2_parse line = Except.error PyErr.parseError := by
  apply pynmea2_parse_error_of_header line c1 c2 c3 c4 c5 tail hdata h1 h2
  intro hc
  rcases tail with _ | ⟨h0, t2⟩
  · simp at hc
  · simp only [List.head?_cons, Option.some.injEq] at hc
    subst hc
    rw [hdata] at hraw
    simp [nmeaHeader, hu1, hu2, hu3, hu4, hu5] at hraw

theorem pynmea2_parse_error_of_dispatch (line : String) (t : SType)
    (hraw : nmeaHeader line.data = false) (hd : dispatch_stype line = some t) :
    pynmea2_parse line = Except.error PyErr.parseError := by
  have four : pyStartsWith line "$GNGLL" = true ∨
      pyStartsWith line "$GPGGA" = true ∨
      pyStartsWith line "$GPRMC" = true ∨
      pyStartsWith line "$GNRMC" = true := by
    simp only [dispatch_stype] at hd
    split_ifs at hd <;> simp [*]
  rcases four with h | h | h | h
  · rw [pyStartsWith, listStarts_iff] at h
    obtain ⟨tail, htail⟩ := h
    have hdata : line.data = '$' :: 'G' :: 'N' :: 'G' :: 'L' :: 'L' :: tail := by
      simpa using htail
    exact parse_error_aux line _ _ _ _ _ tail hdata hraw (by decide) (by decide)
      (by decide) (by decide) (by decide) (by decide) (by decide)
  · rw [pyStartsWith, listStarts_iff] at h
    obtain ⟨tail, htail⟩ := h
    have hdata : line.data = '$' :: 'G' :: 'P' :: 'G' :: 'G' :: 'A' :: tail := by
      simpa using htail
    exact parse_error_aux line _ _ _ _ _ tail hdata hraw (by decide) (by decide)
      (by decide) (by decide) (by decide) (by decide) (by decide)
  · rw [pyStartsWith, listStarts_iff] at h
    obtain ⟨tail, htail⟩ := h
    have hdata : line.data = '$' :: 'G' :: 'P' :: 'R' :: 'M' :: 'C' :: tail := by
      simpa using htail
    exact parse_error_aux line _ _ _ _ _ tail hdata hraw (by decide) (by decide)
      (by decide) (by decide) (by decide) (by decide) (by decide)
  · rw [pyStartsWith, listStarts_iff] at h
    obtain ⟨tail, htail⟩ := h
    have hdata : line.data = '$' :: 'G' :: 'N' :: 'R' :: 'M' :: 'C' :: tail := by
      simpa using htail
    exact parse_error_aux line _ _ _ _ _ tail hdata hraw (by decide) (by decide)
      (by decide) (by decide) (by decide) (by decide) (by decide)

theorem parse_by_propagates_parseError (line : String) (t : SType)
    (h : pynmea2_parse line = Except.error PyErr.parseError) :
    parse_by t line = Except.error PyErr.parseError := by
  cases t <;>
    simp [parse_by, parse_gngll, parse_gpgga, parse_gprmc, parse_gnrmc, h]

/-- Claim C1, counterexample: the line `$GPGGAé,` (non-ASCII junk between
the type letters and the comma) passes the validator after cleaning and
the raw `$GPGGA` dispatch test, yet the decoder reports a `ParseError`
(not a checksum mismatch) and `parse_gpgga` propagates it as an uncaught
exception instead of returning the no-fix pair. -/
theorem claim_c1_counterexample :
    pynmea2_parse "$GPGGAé," = Except.error PyErr.parseError ∧
    parse_gpgga "$GPGGAé," = Except.error PyErr.parseError ∧
    parse_gpgga "$GPGGAé," ≠ Except.ok (none, none) := by
  refine ⟨by decide, by decide, by decide⟩

/-- Claim C1 (amended): for every line, if the decoder reports a checksum
mismatch, all four sentence functions return the no-fix pair
`(None, None)` without raising; decode errors other than a checksum
mismatch are not caught and propagate to the caller as exceptions. -/
theorem claim_c1_theorem (line : String)
    (h : pynmea2_parse line = Except.error PyErr.checksumError) :
    parse_gngll line = Except.ok (none, none) ∧
    parse_gpgga line = Except.ok (none, none) ∧
    parse_gprmc line = Except.ok (none, none) ∧
    parse_gnrmc line = Except.ok (none, none) := by
  refine ⟨?_, ?_, ?_, ?_⟩ <;>
    simp [parse_gngll, parse_gpgga, parse_gprmc, parse_gnrmc, h]

/-- Claim C1, witness: `$GPGGA,x*00` carries a checksum that does not
match its body, so the decoder reports a checksum mismatch and every
sentence function returns the no-fix pair. -/
theorem claim_c1_witness :
    parse_gngll "$GPGGA,x*00" = Except.ok (none, none) ∧
    parse_gpgga "$GPGGA,x*00" = Except.ok (none, none) ∧
    parse_gprmc "$GPGGA,x*00" = Except.ok (none, none) ∧
    parse_gnrmc "$GPGGA,x*00" = Except.ok (none, none) :=
  claim_c1_theorem "$GPGGA,x*00" (by decide)

/-- Claim C2, counterexample: on empty input the RMS stage does report the
condition, but it returns the float `np.nan` — the claim states that no
numeric placeholder such as 0 or NaN is ever passed downstream, yet NaN is
exactly what `calculate_rms` hands back to `main`. -/
theorem claim_c2_counterexample :
    calculate_rms (fun _ _ => (0 : ℝ)) [] [] =
      (["错误：没有有效的 GPS 数据，无法计算 RMS!"], PyFloat.nan) := by
  simp [calculate_rms]

/-- Claim C2 (amended): on empty input each statistics stage reports the
condition on standard output; the percentile stage yields the empty list
(no numeric placeholder at all), while the RMS stage yields the float NaN
as an explicit undefined sentinel — not 0 — which the caller tests with
`np.isnan` before printing. -/
theorem claim_c2_theorem (gd : ℚ × ℚ → ℚ × ℚ → ℝ) (lats lons : List ℚ)
    (h : lats = [] ∨ lons = []) :
    calculate_rms gd lats lons =
      (["错误：没有有效的 GPS 数据，无法计算 RMS!"], PyFloat.nan) ∧
    (∀ qs : List ℚ, calculate_percentiles [] qs =
      (["错误：没有有效的误差数据，无法计算百分位!"], [])) := by
  constructor
  · rcases h with h | h <;> simp [calculate_rms, h]
  · intro qs
    simp [calculate_percentiles]

/-- Claim C2, witness: the empty-input behaviour of both stages at a
concrete instantiation. -/
theorem claim_c2_witness :
    calculate_rms (fun _ _ => (1 : ℝ)) [] [1] =
      (["错误：没有有效的 GPS 数据，无法计算 RMS!"], PyFloat.nan) ∧
    calculate_percentiles [] [68, 95] =
      (["错误：没有有效的误差数据，无法计算百分位!"], []) := by
  have h := claim_c2_theorem (fun _ _ => (1 : ℝ)) [] [1] (Or.inl rfl)
  exact ⟨h.1, h.2 [68, 95]⟩

theorem char_isUpper_iff (a : Char) : a.isUpper = true ↔ 'A' ≤ a ∧ a ≤ 'Z' := by
  simp [Char.isUpper, Char.le_def]

theorem nmeaHeader_iff (cs : List Char) :
    nmeaHeader cs = true ↔ specHeader cs := by
  constructor
  · intro h
    rcases cs with _ | ⟨c0, _ | ⟨a, _ | ⟨b, _ | ⟨c, _ | ⟨d, _ | ⟨e, _ | ⟨f, rest⟩⟩⟩⟩⟩⟩⟩
    · exact absurd h (by simp [nmeaHeader])
    · exact absurd h (by simp [nmeaHeader])
    · exact absurd h (by simp [nmeaHeader])
    · exact absurd h (by simp [nmeaHeader])
    · exact absurd h (by simp [nmeaHeader])
    · exact absurd h (by simp [nmeaHeader])
    · exact absurd h (by simp [nmeaHeader])
    simp only [nmeaHeader, Bool.and_eq_true, beq_iff_eq] at h
    obtain ⟨⟨⟨⟨⟨⟨h0, ha⟩, hb⟩, hc⟩, hd⟩, he⟩, hf⟩ := h
    subst h0
    subst hf
    refine ⟨a, b, c, d, e, rest, rfl, ?_⟩
    intro x hx
    simp only [List.mem_cons, List.not_mem_nil, or_false] at hx
    rcases hx with rfl | rfl | rfl | rfl | rfl
    · exact (char_isUpper_iff x).mp ha
    · exact (char_isUpper_iff x).mp hb
    · exact (char_isUpper_iff x).mp hc
    · exact (char_isUpper_iff x).mp hd
    · exact (char_isUpper_iff x).mp he
  · rintro ⟨a, b, c, d, e, rest, rfl, hu⟩
    have ha := (char_isUpper_iff a).mpr (hu a (by simp))
    have hb := (char_isUpper_iff b).mpr (hu b (by simp))
    have hc := (char_isUpper_iff c).mpr (hu c (by simp))
    have hd := (char_isUpper_iff d).mpr (hu d (by simp))
    have he := (char_isUpper_iff e).mpr (hu e (by simp))
    simp [nmeaHeader, ha, hb, hc, hd, he]

/-- Claim C3, counterexample: the claim characterises the cleaning as
removal of characters outside the printable ASCII range, but the code only
removes characters above 0x7F.  On the line `\x01$GPGGA,` (a non-printable
ASCII control byte before the dollar sign) `is_valid_nmea` returns false,
while the claim's characterisation — clean away non-printable ASCII, then
match the pattern — accepts it. -/
theorem claim_c3_counterexample :
    is_valid_nmea "\x01$GPGGA," = false ∧
    specHeader (specCleanPrintable (pyStrip ("\x01$GPGGA,".data))) := by
  constructor
  · decide
  · exact ⟨'G', 'P', 'G', 'G', 'A', [], by decide, by decide⟩

/-- Claim C3 (amended): `is_valid_nmea(line)` returns true iff the cleaned
line — leading/trailing whitespace stripped, then every character with a
code point above 0x7F removed (non-ASCII removal, not printable-ASCII
filtering) — begins with a dollar sign, exactly five uppercase ASCII
letters and a comma. -/
theorem claim_c3_theorem (line : String) :
    is_valid_nmea line = true ↔
      specHeader (removeNonAscii (pyStrip line.data)) := by
  rw [is_valid_nmea, nmeaHeader_iff]

/-- Claim C4, counterexample: on `$GPGGA,,12.5,N` decoding succeeds, yet
`parse_gpgga` does not return the decoded pair: the latitude text `12.5`
does not match the degree/minute pattern of `dm_to_sd`, so the coordinate
conversion raises an uncaught `AttributeError` instead. -/
theorem claim_c4_counterexample :
    pynmea2_parse "$GPGGA,,12.5,N" =
      Except.ok ⟨"GP", "GGA", ["", "12.5", "N"]⟩ ∧
    parse_gpgga "$GPGGA,,12.5,N" = Except.error PyErr.attributeError := by
  exact ⟨by decide, by decide⟩

/-- Claim C4 (amended): for every successfully decoded sentence,
`parse_gngll`, `parse_gprmc` and `parse_gnrmc` return a fix only when the
sentence's own status field equals `A` (returning the no-fix pair whenever
the status is present and differs from `A`, regardless of coordinate
fields), while `parse_gpgga` applies no status gate and returns the
decoded coordinates whenever the latitude/longitude conversion itself
succeeds; in all four functions a malformed coordinate field makes that
conversion raise an uncaught `AttributeError` instead of yielding a
fix. -/
theorem claim_c4_theorem (line : String) (msg : PyMsg)
    (h : pynmea2_parse line = Except.ok msg) :
    (∀ la lo, msg_latitude msg = Except.ok la →
      msg_longitude msg = Except.ok lo →
      parse_gpgga line = Except.ok (some la, some lo)) ∧
    (∀ s, msg_status msg = Except.ok s → s ≠ "A" →
      parse_gngll line = Except.ok (none, none) ∧
      parse_gprmc line = Except.ok (none, none) ∧
      parse_gnrmc line = Except.ok (none, none)) ∧
    (∀ a b, parse_gngll line = Except.ok (some a, some b) →
      msg_status msg = Except.ok "A") ∧
    (∀ a b, parse_gprmc line = Except.ok (some a, some b) →
      msg_status msg = Except.ok "A") ∧
    (∀ a b, parse_gnrmc line = Except.ok (some a, some b) →
      msg_status msg = Except.ok "A") := by
  refine ⟨?_, ?_, ?_, ?_, ?_⟩
  · intro la lo hla hlo
    simp [parse_gpgga, h, hla, hlo]
  · intro s hs hne
    have hsA : (s == "A") = false := beq_eq_false_iff_ne.mpr hne
    refine ⟨?_, ?_, ?_⟩ <;>
      simp [parse_gngll, parse_gprmc, parse_gnrmc, h, hs, hsA]
  · intro a b hab
    simp only [parse_gngll, h] at hab
    cases hst : msg_status msg with
    | error e => rw [hst] at hab; exact absurd hab (by simp)
    | ok s =>
        rw [hst] at hab
        by_cases hA : s = "A"
        · rw [hA]
        · simp [hA] at hab
  · intro a b hab
    simp only [parse_gprmc, h] at hab
    cases hst : msg_status msg with
    | error e => rw [hst] at hab; exact absurd hab (by simp)
    | ok s =>
        rw [hst] at hab
        by_cases hA : s = "A"
        · rw [hA]
        · simp [hA] at hab
  · intro a b hab
    simp only [parse_gnrmc, h] at hab
    cases hst : msg_status msg with
    | error e => rw [hst] at hab; exact absurd hab (by simp)
    | ok s =>
        rw [hst] at hab
        by_cases hA : s = "A"
        · rw [hA]
        · simp [hA] at hab

/-- Claim C4, witness: a GLL sentence whose status field is `V` decodes
successfully and all three status-gated functions return the no-fix pair
despite the coordinate fields being present. -/
theorem claim_c4_witness :
    parse_gngll "$GNGLL,4916.45,N,12311.12,W,,V" = Except.ok (none, none) ∧
    parse_gprmc "$GNGLL,4916.45,N,12311.12,W,,V" = Except.ok (none, none) ∧
    parse_gnrmc "$GNGLL,4916.45,N,12311.12,W,,V" = Except.ok (none, none) :=
  ( claim_c4_theorem "$GNGLL,4916.45,N,12311.12,W,,V"
    ⟨"GN", "GLL", ["4916.45", "N", "12311.12", "W", "", "V"]⟩
    (by decide)).2.1 "V" (by decide) (by decide)

/-- Claim C5, counterexample: the line `$GPGGA,,12.5,N` passes the
validator and the `$GPGGA` prefix match, but its parse raises an uncaught
`AttributeError`, so `load_gps_data` on a file containing it returns no
series at all — rather than accumulating one pair per qualifying line and
skipping the rest, as the claim states for every input file. -/
theorem claim_c5_counterexample :
    is_valid_nmea "$GPGGA,,12.5,N" = true ∧
    dispatch_stype "$GPGGA,,12.5,N" = some SType.gpgga ∧
    load_gps_data (fun _ => some ["$GPGGA,,12.5,N"]) "gps.log" =
      Except.error PyErr.attributeError := by
  exact ⟨by decide, by decide, by decide⟩

/-- Claim C5 (amended): whenever `load_gps_data` returns (no line made an
uncaught exception escape a parse), the returned latitude and longitude
series are exactly the per-line fixes, in file order: one pair for each
line that passes the validator, matches one of the four recognized
prefixes and parses to a fix; every other line contributes nothing. -/
theorem claim_c5_theorem (fs : String → Option (List String)) (file : String)
    (lines : List String) (msgs : List String) (la lo : List ℚ)
    (hfs : fs file = some lines)
    (h : load_gps_data fs file = Except.ok (msgs, (la, lo))) :
    la = (lines.filterMap lineFix).map Prod.fst ∧
    lo = (lines.filterMap lineFix).map Prod.snd := by
  simp only [load_gps_data, hfs] at h
  cases hl : loadLoop ([], []) lines with
  | error e => rw [hl] at h; exact absurd h (by simp)
  | ok r =>
      obtain ⟨la2, lo2⟩ := r
      rw [hl] at h
      simp only [Except.ok.injEq, Prod.mk.injEq] at h
      obtain ⟨-, h1, h2⟩ := h
      have := loadLoop_char lines ([], []) la2 lo2 hl
      subst h1
      subst h2
      simpa using this

/-- Claim C5, witness: a two-line file in which only the second line
qualifies (the GGA sentence with empty fields decodes to the fix
`(0, 0)`). -/
theorem claim_c5_witness :
    ([(0 : ℚ)] : List ℚ) =
      ((["hello", "$GPGGA,"].filterMap lineFix).map Prod.fst) ∧
    ([(0 : ℚ)] : List ℚ) =
      ((["hello", "$GPGGA,"].filterMap lineFix).map Prod.snd) :=
  claim_c5_theorem (fun _ => some ["hello", "$GPGGA,"]) "gps.log"
    ["hello", "$GPGGA,"] [] [0] [0] rfl (by decide)

/-- Claim C9: whenever `load_gps_data` returns, the latitude and longitude
series have equal length — both are appended together, one element each,
under the same condition — so the downstream `zip` pairs every latitude
with its longitude and drops nothing. -/
theorem claim_c9_theorem (fs : String → Option (List String)) (file : String)
    (msgs : List String) (la lo : List ℚ)
    (h : load_gps_data fs file = Except.ok (msgs, (la, lo))) :
    la.length = lo.length := by
  cases hfs : fs file with
  | none =>
      simp only [load_gps_data, hfs] at h
      simp only [Except.ok.injEq, Prod.mk.injEq] at h
      obtain ⟨-, h1, h2⟩ := h
      rw [← h1, ← h2]
  | some lines =>
      simp only [load_gps_data, hfs] at h
      cases hl : loadLoop ([], []) lines with
      | error e => rw [hl] at h; exact absurd h (by simp)
      | ok r =>
          obtain ⟨la2, lo2⟩ := r
          rw [hl] at h
          simp only [Except.ok.injEq, Prod.mk.injEq] at h
          obtain ⟨-, h1, h2⟩ := h
          have hc := loadLoop_char lines ([], []) la2 lo2 hl
          subst h1
          subst h2
          simp [hc.1, hc.2]

/-- Claim C9, witness: the equal-length invariant at a concrete file. -/
theorem claim_c9_witness :
    (1 : Nat) = 1 :=
  claim_c9_theorem (fun _ => some ["hello", "$GPGGA,"]) "gps.log"
    [] [0] [0] (by decide)

/-- Claim C10, counterexample: `$GPGGAé,` passes the validator only by
virtue of cleaning (the raw line does not match the header pattern), yet
the raw-line prefix match `startswith('$GPGGA')` succeeds — contradicting
the claim that it fails for every such line. -/
theorem claim_c10_counterexample :
    onlyByCleaning "$GPGGAé," = true ∧
    pyStartsWith "$GPGGAé," "$GPGGA" = true ∧
    dispatch_stype "$GPGGAé," = some SType.gpgga := by
  exact ⟨by decide, by decide, by decide⟩

/-- Claim C10 (amended): the cleaning is applied only to a local copy, and
prefix dispatch and parsing receive the raw line; consequently a line that
passes the validator only by virtue of cleaning never contributes a fix —
but not always by failing the prefix match: if the junk sits between the
type letters and the comma the raw prefix still matches, and the decoder
then raises an uncaught `ParseError` on the raw line. -/
theorem claim_c10_theorem (line : String) (h : onlyByCleaning line = true) :
    lineFix line = none ∧
    (∀ t, dispatch_stype line = some t →
      parse_by t line = Except.error PyErr.parseError) := by
  simp only [onlyByCleaning, Bool.and_eq_true] at h
  obtain ⟨hv, hn⟩ := h
  have hraw : nmeaHeader line.data = false := by
    cases hb : nmeaHeader line.data
    · rfl
    · rw [hb] at hn; exact absurd hn (by decide)
  have key : ∀ t, dispatch_stype line = some t →
      parse_by t line = Except.error PyErr.parseError := fun t hd =>
    parse_by_propagates_parseError line t
      (pynmea2_parse_error_of_dispatch line t hraw hd)
  refine ⟨?_, key⟩
  rw [lineFix]
  simp only [hv, if_true]
  cases hd : dispatch_stype line with
  | none => rfl
  | some t => simp [key t hd]

/-- Claim C10, witness: a line with leading whitespace passes the
validator only after cleaning and contributes no fix. -/
theorem claim_c10_witness :
    lineFix " $GNGLL,x" = none :=
  ( claim_c10_theorem " $GNGLL,x" (by decide)).1

/-- Claim C6: on a missing input file, and likewise on a file from which
zero valid fixes are extracted, `main` prints a diagnostic and returns
with no statistics computed, no CSV rows written and no histogram
rendered. -/
theorem claim_c6_theorem (fs : String → Option (List String))
    (gd : ℚ × ℚ → ℚ × ℚ → ℝ) (fmt : ℝ → String) (file : String) :
    (fs file = none →
      main fs gd fmt file = Except.ok
        ⟨["错误：文件 " ++ file ++ " 不存在!",
          "错误：没有解析到有效的 GPS 数据。"], none, none, false⟩) ∧
    (∀ msgs lats lons, load_gps_data fs file = Except.ok (msgs, (lats, lons)) →
      lats = [] ∨ lons = [] →
      main fs gd fmt file = Except.ok
        ⟨msgs ++ ["错误：没有解析到有效的 GPS 数据。"], none, none, false⟩) := by
  constructor
  · intro hfs
    simp [main, load_gps_data, hfs]
  · intro msgs lats lons hload hdisj
    have hcond : (lats.isEmpty || lons.isEmpty) = true := by
      rcases hdisj with rfl | rfl <;> simp
    simp [main, hload, hcond]

/-- Claim C6, witness: running `main` on a missing file. -/
theorem claim_c6_witness :
    main (fun _ => none) (fun _ _ => (0 : ℝ)) (fun _ => "0.00") "data.txt" =
      Except.ok ⟨["错误：文件 " ++ "data.txt" ++ " 不存在!",
        "错误：没有解析到有效的 GPS 数据。"], none, none, false⟩ :=
  (claim_c6_theorem (fun _ => none) (fun _ _ => (0 : ℝ))
    (fun _ => "0.00") "data.txt").1 rfl

/-- Claim C7: for a non-empty position series the RMS stage computes
exactly the square root of the mean of the squared per-point geodesic
distances to the centroid, the centroid being the pair of independent
arithmetic means, and the percentile stage computes the 68th and 95th
percentiles of the error series by linear interpolation between order
statistics (numpy's default rule). -/
theorem claim_c7_theorem (gd : ℚ × ℚ → ℚ × ℚ → ℝ) (lats lons : List ℚ)
    (h1 : lats ≠ []) (h2 : lons ≠ []) :
    calculate_rms gd lats lons =
      ([], PyFloat.val (spec_rms (spec_errors gd lats lons))) ∧
    calculate_percentiles (spec_errors gd lats lons) [68, 95] =
      ([], [np_percentile_one (spec_errors gd lats lons) 68,
            np_percentile_one (spec_errors gd lats lons) 95]) := by
  have he1 : lats.isEmpty = false := by
    rw [List.isEmpty_eq_false]; exact h1
  have he2 : lons.isEmpty = false := by
    rw [List.isEmpty_eq_false]; exact h2
  constructor
  · simp only [calculate_rms, he1, he2, Bool.or_self, Bool.false_or,
      Bool.false_eq_true, if_false, errorsLoop_eq, List.nil_append]
    simp [spec_rms, spec_errors, np_mean_r]
  · have hlen : 0 < (spec_errors gd lats lons).length := by
      have l1 : 0 < lats.length := List.length_pos.mpr h1
      have l2 : 0 < lons.length := List.length_pos.mpr h2
      simp only [spec_errors, List.length_map, List.length_zip]
      omega
    have hz : (spec_errors gd lats lons).isEmpty = false := by
      rw [List.isEmpty_eq_false]
      exact List.ne_nil_of_length_pos hlen
    simp [calculate_percentiles, hz]

/-- Claim C7, witness: the characterisation at a concrete two-point
series. -/
theorem claim_c7_witness :
    calculate_rms (fun _ _ => (1 : ℝ)) [1, 2] [3, 4] =
      ([], PyFloat.val (spec_rms (spec_errors (fun _ _ => (1 : ℝ)) [1, 2] [3, 4]))) ∧
    calculate_percentiles (spec_errors (fun _ _ => (1 : ℝ)) [1, 2] [3, 4]) [68, 95] =
      ([], [np_percentile_one (spec_errors (fun _ _ => (1 : ℝ)) [1, 2] [3, 4]) 68,
            np_percentile_one (spec_errors (fun _ _ => (1 : ℝ)) [1, 2] [3, 4]) 95]) :=
  claim_c7_theorem (fun _ _ => (1 : ℝ)) [1, 2] [3, 4] (by decide) (by decide)

/-- Claim C8: for a series of `n` identical points (`n > 0`, geodesic
distance of a point to itself being zero), the RMS is 0 and the 68th and
95th percentile errors are both 0. -/
theorem claim_c8_theorem (gd : ℚ × ℚ → ℚ × ℚ → ℝ) (p : ℚ × ℚ) (n : Nat)
    (hn : 0 < n) (hgd : gd p p = 0) :
    (calculate_rms gd (List.replicate n p.1) (List.replicate n p.2)).2 =
      PyFloat.val 0 ∧
    calculate_percentiles
      (spec_errors gd (List.replicate n p.1) (List.replicate n p.2))
      [68, 95] = ([], [0, 0]) := by
  have hnz : n ≠ 0 := Nat.pos_iff_ne_zero.mp hn
  have hne1 : List.replicate n p.1 ≠ [] := by
    simp [ne_eq, List.replicate_eq_nil_iff]
    exact hnz
  have hne2 : List.replicate n p.2 ≠ [] := by
    simp [ne_eq, List.replicate_eq_nil_iff]
    exact hnz
  have hmean1 : np_mean_q (List.replicate n p.1) = p.1 :=
    np_mean_q_replicate n p.1 hn
  have hmean2 : np_mean_q (List.replicate n p.2) = p.2 :=
    np_mean_q_replicate n p.2 hn
  have herr : spec_errors gd (List.replicate n p.1) (List.replicate n p.2) =
      List.replicate n 0 := by
    rw [spec_errors, hmean1, hmean2, zip_replicate_eq, List.map_replicate]
    simp [hgd]
  constructor
  · have he1 : (List.replicate n p.1).isEmpty = false := by
      rw [List.isEmpty_eq_false]; exact hne1
    have he2 : (List.replicate n p.2).isEmpty = false := by
      rw [List.isEmpty_eq_false]; exact hne2
    simp only [calculate_rms, he1, he2, Bool.or_self, Bool.false_eq_true,
      if_false, errorsLoop_eq, List.nil_append]
    have hloop : (List.replicate n p.1).zip (List.replicate n p.2) =
        List.replicate n (p.1, p.2) := zip_replicate_eq p.1 p.2 n
    rw [hmean1, hmean2, hloop, List.map_replicate]
    have hgd2 : gd (p.1, p.2) (p.1, p.2) = 0 := by
      simpa using hgd
    rw [hgd2, List.map_replicate]
    simp [np_mean_r, List.sum_replicate]
  · rw [herr]
    have hz : (List.replicate n (0 : ℝ)).isEmpty = false := by
      rw [List.isEmpty_eq_false]
      simp [ne_eq, List.replicate_eq_nil_iff]
      exact hnz
    have hp : ∀ q : ℚ, np_percentile_one (List.replicate n (0 : ℝ)) q = 0 := by
      intro q
      exact np_percentile_one_all_zero _ q
        (fun x hx => List.eq_of_mem_replicate hx)
    simp [calculate_percentiles, hz, hp]

/-- Claim C8, witness: three identical points at `(1, 2)` with a distance
capability that is zero on that pair. -/
theorem claim_c8_witness :
    (calculate_rms (fun _ _ => (0 : ℝ))
      (List.replicate 3 (1 : ℚ)) (List.replicate 3 (2 : ℚ))).2 =
      PyFloat.val 0 ∧
    calculate_percentiles
      (spec_errors (fun _ _ => (0 : ℝ))
        (List.replicate 3 (1 : ℚ)) (List.replicate 3 (2 : ℚ)))
      [68, 95] = ([], [0, 0]) :=
  claim_c8_theorem (fun _ _ => (0 : ℝ)) ((1 : ℚ), (2 : ℚ)) 3 (by decide) rfl
